import Mathlib

/-!
Verification of the AMP HTML pr-check CI pipeline fragment
(`build-system/pr-check/utils.js` and the `checks.js` entry point).

Every function in the source is a sequencing wrapper around external
processes (`exec`, `execOrDie`), console output, and two external
collaborator calls (`replaceUrls`, `signalDistUploadComplete`).  We embed
each function as a Lean function producing the *trace* of externally
visible actions it performs, in order.  Fatal semantics of `execOrDie`
(terminate the whole process on a non-zero exit) are given by an
interpreter `runTrace` over an oracle saying which commands fail.

The persistent gcloud CLI configuration mutated by
`authenticateWithStorageLocation_` is modelled by an explicit state
(`GcloudState`) and a structural interpretation of the gcloud/openssl
commands, parameterised by the external semantics of decryption and of
service-account activation.
-/

/-- One externally visible action of the pipeline.
`log` / `logError` are `console.log` / `console.error` with the final
string (arguments joined by single spaces, as Node's console does).
`exec` is the non-fatal runner, `execOrDie` the fatal one.
`startTimer fn file` / `stopTimer fn file` mark the calls to the
timer functions of utils.js (their printed text is modelled separately by
`stopTimerMessage`).  `replaceUrls` and `signalDistUploadComplete` are the
external collaborator calls of `processAndUploadDistOutput`;
`printChangeSummary`, `determineBuildTargets` and `reportAllExpectedTests`
mark the calls made by `checks.js` to those log-only / external helpers. -/
inductive Event where
  | log (msg : String)
  | logError (msg : String)
  | exec (cmd : String)
  | execOrDie (cmd : String)
  | startTimer (functionName fileName : String)
  | stopTimer (functionName fileName : String)
  | replaceUrls (dir : String)
  | signalDistUploadComplete
  | printChangeSummary (fileName : String)
  | determineBuildTargets (fileName : String)
  | reportAllExpectedTests
deriving DecidableEq, Repr

/-- ansi-colors `bold`: wraps in ESC[1m … ESC[22m. -/
def ansiBold (s : String) : String := "\x1b[1m" ++ s ++ "\x1b[22m"

/-- ansi-colors `red`. -/
def ansiRed (s : String) : String := "\x1b[31m" ++ s ++ "\x1b[39m"

/-- ansi-colors `green`. -/
def ansiGreen (s : String) : String := "\x1b[32m" ++ s ++ "\x1b[39m"

/-- ansi-colors `yellow`. -/
def ansiYellow (s : String) : String := "\x1b[33m" ++ s ++ "\x1b[39m"

/-- ansi-colors `cyan`. -/
def ansiCyan (s : String) : String := "\x1b[36m" ++ s ++ "\x1b[39m"

/-- `colors.bold(colors.yellow(fileName + ':'))`, the log prefix built at
the top of most utils.js functions. -/
def fileLogPrefix (fileName : String) : String :=
  ansiBold (ansiYellow (fileName ++ ":"))

/-- The ambient CI environment read by utils.js: `isTravisBuild()`,
`travisBuildNumber()` and `process.env.GCP_TOKEN`. -/
structure Env where
  isTravisBuild : Bool
  travisBuildNumber : String
  gcpToken : String
deriving DecidableEq, Repr

/-- `BUILD_OUTPUT_FILE` (utils.js line 40). -/
def BUILD_OUTPUT_FILE (env : Env) : String :=
  if env.isTravisBuild then "amp_build_" ++ env.travisBuildNumber ++ ".zip" else ""

/-- `DIST_OUTPUT_FILE` (utils.js line 43). -/
def DIST_OUTPUT_FILE (env : Env) : String :=
  if env.isTravisBuild then "amp_dist_" ++ env.travisBuildNumber ++ ".zip" else ""

/-- `BUILD_OUTPUT_DIRS` (utils.js line 47). -/
def BUILD_OUTPUT_DIRS : String := "build/ dist/ dist.3p/ EXTENSIONS_CSS_MAP"

/-- `DIST_OUTPUT_DIRS` (utils.js line 48). -/
def DIST_OUTPUT_DIRS : String :=
  "build/ dist/ dist.3p/ dist.tools/ EXTENSIONS_CSS_MAP examples/ test/manual/"

/-- `OUTPUT_STORAGE_LOCATION` (utils.js line 51). -/
def OUTPUT_STORAGE_LOCATION : String := "gs://amp-travis-builds"

/-- `OUTPUT_STORAGE_KEY_FILE` (utils.js line 52). -/
def OUTPUT_STORAGE_KEY_FILE : String := "sa-travis-key.json"

/-- `OUTPUT_STORAGE_PROJECT_ID` (utils.js line 53). -/
def OUTPUT_STORAGE_PROJECT_ID : String := "amp-travis-build-storage"

/-- `OUTPUT_STORAGE_SERVICE_ACCOUNT` (utils.js line 54). -/
def OUTPUT_STORAGE_SERVICE_ACCOUNT : String :=
  "sa-travis@amp-travis-build-storage.iam.gserviceaccount.com"

/-- `GIT_BRANCH_URL` (utils.js line 57). -/
def GIT_BRANCH_URL : String :=
  "https://github.com/ampproject/amphtml/blob/master/contributing/getting-started-e2e.md#create-a-git-branch"

/-- `decryptTravisKey_()` (utils.js lines 352-360): one fatal openssl
invocation, AES-256-CBC with the explicit `-md sha256` digest, keyed by
`process.env.GCP_TOKEN`. -/
def decryptTravisKey_ (env : Env) : List Event :=
  [Event.execOrDie
    ("openssl aes-256-cbc -md sha256 -k " ++ env.gcpToken ++ " -in " ++
      "build-system/sa-travis-key.json.enc -out " ++ OUTPUT_STORAGE_KEY_FILE ++ " -d")]

/-- `authenticateWithStorageLocation_()` (utils.js lines 293-303):
decrypt the key, activate the service account, three `gcloud config set`
commands, then `gcloud config list`; every step via `execOrDie`. -/
def authenticateWithStorageLocation_ (env : Env) : List Event :=
  decryptTravisKey_ env ++
  [Event.execOrDie
      ("gcloud auth activate-service-account " ++
        "--key-file " ++ OUTPUT_STORAGE_KEY_FILE),
   Event.execOrDie ("gcloud config set account " ++ OUTPUT_STORAGE_SERVICE_ACCOUNT),
   Event.execOrDie "gcloud config set pass_credentials_to_gsutil true",
   Event.execOrDie ("gcloud config set project " ++ OUTPUT_STORAGE_PROJECT_ID),
   Event.execOrDie "gcloud config list"]

/-- `downloadOutput_(functionName, outputFileName, outputDirs)`
(utils.js lines 232-257). -/
def downloadOutput_ (functionName outputFileName outputDirs : String)
    (env : Env) : List Event :=
  let buildOutputDownloadUrl := OUTPUT_STORAGE_LOCATION ++ "/" ++ outputFileName
  [Event.log (fileLogPrefix functionName ++ " Downloading build output from " ++
      ansiCyan buildOutputDownloadUrl ++ "..."),
   Event.exec "echo travis_fold:start:download_results && echo"] ++
  authenticateWithStorageLocation_ env ++
  [Event.execOrDie ("gsutil cp " ++ buildOutputDownloadUrl ++ " " ++ outputFileName),
   Event.exec "echo travis_fold:end:download_results",
   Event.log (fileLogPrefix functionName ++ " Extracting " ++
      ansiCyan outputFileName ++ "..."),
   Event.exec "echo travis_fold:start:unzip_results && echo",
   Event.execOrDie ("unzip -o " ++ outputFileName),
   Event.exec "echo travis_fold:end:unzip_results",
   Event.log (fileLogPrefix functionName ++ " Verifying extracted files..."),
   Event.exec "echo travis_fold:start:verify_unzip_results && echo",
   Event.execOrDie ("ls -laR " ++ outputDirs),
   Event.exec "echo travis_fold:end:verify_unzip_results"]

/-- `uploadOutput_(functionName, outputFileName, outputDirs)`
(utils.js lines 266-291): compress, then authenticate, then copy to the
storage location. -/
def uploadOutput_ (functionName outputFileName outputDirs : String)
    (env : Env) : List Event :=
  [Event.log ("\n" ++ fileLogPrefix functionName ++ " Compressing " ++
      ansiCyan (String.intercalate ", " (outputDirs.splitOn " ")) ++
      " into " ++ ansiCyan outputFileName ++ "..."),
   Event.exec "echo travis_fold:start:zip_results && echo",
   Event.execOrDie ("zip -r " ++ outputFileName ++ " " ++ outputDirs),
   Event.exec "echo travis_fold:end:zip_results",
   Event.log (fileLogPrefix functionName ++ " Uploading " ++
      ansiCyan outputFileName ++ " to " ++ ansiCyan OUTPUT_STORAGE_LOCATION ++ "..."),
   Event.exec "echo travis_fold:start:upload_results && echo"] ++
  authenticateWithStorageLocation_ env ++
  [Event.execOrDie
      ("gsutil -m cp -r " ++ outputFileName ++ " " ++ OUTPUT_STORAGE_LOCATION),
   Event.exec "echo travis_fold:end:upload_results"]

/-- `downloadBuildOutput(functionName)` (utils.js line 309). -/
def downloadBuildOutput (functionName : String) (env : Env) : List Event :=
  downloadOutput_ functionName (BUILD_OUTPUT_FILE env) BUILD_OUTPUT_DIRS env

/-- `downloadDistOutput(functionName)` (utils.js line 317). -/
def downloadDistOutput (functionName : String) (env : Env) : List Event :=
  downloadOutput_ functionName (DIST_OUTPUT_FILE env) DIST_OUTPUT_DIRS env

/-- `uploadBuildOutput(functionName)` (utils.js line 325). -/
def uploadBuildOutput (functionName : String) (env : Env) : List Event :=
  uploadOutput_ functionName (BUILD_OUTPUT_FILE env) BUILD_OUTPUT_DIRS env

/-- `uploadDistOutput(functionName)` (utils.js line 333). -/
def uploadDistOutput (functionName : String) (env : Env) : List Event :=
  uploadOutput_ functionName (DIST_OUTPUT_FILE env) DIST_OUTPUT_DIRS env

/-- `processAndUploadDistOutput(functionName)` (utils.js lines 342-347):
rewrite URLs in test/manual and examples, upload the dist output, then
signal the PR deploy bot. -/
def processAndUploadDistOutput (functionName : String) (env : Env) : List Event :=
  [Event.replaceUrls "test/manual", Event.replaceUrls "examples"] ++
  uploadDistOutput functionName env ++
  [Event.signalDistUploadComplete]

/-- `startTimer(functionName, fileName)` (utils.js lines 167-176): prints
the "Running …" line; the returned `Date.now()` timestamp is threaded by
the caller and only consumed by `stopTimer`, so the trace records the call
itself. -/
def startTimer (functionName fileName : String) : List Event :=
  [Event.startTimer functionName fileName]

/-- `stopTimer(functionName, fileName, startTime)` (utils.js lines
185-198): prints the "Done running … Total time: XmYs" line. -/
def stopTimer (functionName fileName : String) : List Event :=
  [Event.stopTimer functionName fileName]

/-- Minutes printed by `stopTimer` for an execution time in milliseconds:
`Math.floor(executionTime / 60000)` (utils.js line 188). -/
def stopTimerMins (executionTime : Nat) : Nat := executionTime / 60000

/-- Seconds printed by `stopTimer`:
`Math.floor((executionTime % 60000) / 1000)` (utils.js line 189). -/
def stopTimerSecs (executionTime : Nat) : Nat := (executionTime % 60000) / 1000

/-- The elapsed-time string `mins + 'm ' + secs + 's'` printed (in green)
by `stopTimer` (utils.js line 196), as a function of
`executionTime = endTime - startTime` (line 187). -/
def stopTimerTimeString (executionTime : Nat) : String :=
  toString (stopTimerMins executionTime) ++ "m " ++
    toString (stopTimerSecs executionTime) ++ "s"

/-- The full line printed by `stopTimer` (utils.js lines 191-197), with
the console arguments joined by single spaces. -/
def stopTimerMessage (functionName fileName : String)
    (startTime endTime : Nat) : String :=
  fileLogPrefix fileName ++ " Done running " ++ ansiCyan functionName ++
    " Total time: " ++ ansiGreen (stopTimerTimeString (endTime - startTime))

/-- `timedExecOrDie(cmd, fileName)` (utils.js lines 219-223): start a
timer, run the command fatally, stop the timer. -/
def timedExecOrDie (cmd : String) (fileName : String) : List Event :=
  startTimer cmd fileName ++ [Event.execOrDie cmd] ++ stopTimer cmd fileName

/-- `timedExec(cmd, fileName)` (utils.js lines 206-211): like
`timedExecOrDie` but with the non-fatal runner. -/
def timedExec (cmd : String) (fileName : String) : List Event :=
  startTimer cmd fileName ++ [Event.exec cmd] ++ stopTimer cmd fileName

/-- `verifyBranchCreationPoint(fileName)` (utils.js lines 65-89).
`gitBranchCreationPoint()` and `gitBranchName()` are external git queries
returning strings; a JS-falsy result (the empty string) means no common
ancestor was found.  Returns the printed events and the boolean result:
two `console.error` lines (the second carrying the remediation URL) and
`false` when there is no creation point, otherwise no output and `true`. -/
def verifyBranchCreationPoint (fileName branchCreationPoint branchName : String) :
    List Event × Bool :=
  if branchCreationPoint = "" then
    ([Event.logError (fileLogPrefix fileName ++ " " ++ ansiRed "ERROR:" ++
        " Could not find a common ancestor for " ++ ansiCyan branchName ++
        " and " ++ ansiCyan "master" ++ ". Was this PR branch properly forked?"),
      Event.logError (fileLogPrefix fileName ++ " " ++ ansiYellow "NOTE:" ++
        " To fix this, rebase your branch on " ++ ansiCyan "master" ++
        ", or recreate it by following the instructions at " ++
        ansiCyan GIT_BRANCH_URL ++ ".")],
     false)
  else ([], true)

/-- Outcome of running a trace: either every fatal command succeeded, or
`execOrDie` hit a failing command and terminated the process there. -/
inductive Outcome where
  | ok
  | died (cmd : String)
deriving DecidableEq, Repr

/-- Fatal semantics of a trace: given an oracle `fails` saying which
external commands exit non-zero, execution proceeds in order and stops at
the first failing `execOrDie` command (`execOrDie` terminates the whole
process on failure; plain `exec` never does). -/
def runTrace (fails : String → Bool) : List Event → Outcome
  | [] => Outcome.ok
  | Event.execOrDie c :: rest =>
      if fails c then Outcome.died c else runTrace fails rest
  | _ :: rest => runTrace fails rest

/-- The environment read by the `checks.js` entry point: the result of
`runYarnChecks(FILENAME)`, `isTravisPullRequestBuild()`, the external git
queries feeding `verifyBranchCreationPoint`, and the change-classification
result `determineBuildTargets(FILENAME)` (a set of target names). -/
structure ChecksEnv where
  runYarnChecks : Bool
  isTravisPullRequestBuild : Bool
  branchCreationPoint : String
  branchName : String
  buildTargets : List String
deriving DecidableEq, Repr

/-- `FILENAME` of checks.js (part_000 line 37). -/
def FILENAME : String := "checks.js"

/-- The local `timedExecOrDie` wrapper of checks.js (part_000 line 38),
which pins the file name to `FILENAME`. -/
def checksTimedExecOrDie (cmd : String) : List Event := timedExecOrDie cmd FILENAME

/-- `main()` of checks.js (part_000 lines 41-105), returning the trace of
events issued and the value of `process.exitCode` set by `main` itself
(0 when never set).  Fatal termination inside a `timedExecOrDie` is the
business of `runTrace`, not of this function. -/
def mainChecks (env : ChecksEnv) : List Event × Nat :=
  if !env.runYarnChecks then
    (startTimer FILENAME FILENAME ++ stopTimer FILENAME FILENAME, 1)
  else if !env.isTravisPullRequestBuild then
    (startTimer FILENAME FILENAME ++
      checksTimedExecOrDie "gulp update-packages" ++
      checksTimedExecOrDie "gulp check-exact-versions" ++
      checksTimedExecOrDie "gulp lint" ++
      checksTimedExecOrDie "gulp presubmit" ++
      checksTimedExecOrDie "gulp ava" ++
      checksTimedExecOrDie "gulp babel-plugin-tests" ++
      checksTimedExecOrDie "gulp caches-json" ++
      checksTimedExecOrDie "gulp json-syntax" ++
      checksTimedExecOrDie "gulp dev-dashboard-tests" ++
      checksTimedExecOrDie "gulp dep-check" ++
      checksTimedExecOrDie "gulp check-types" ++
      stopTimer FILENAME FILENAME, 0)
  else
    let v := verifyBranchCreationPoint FILENAME env.branchCreationPoint env.branchName
    if !v.2 then
      (startTimer FILENAME FILENAME ++ v.1 ++ stopTimer FILENAME FILENAME, 1)
    else
      (startTimer FILENAME FILENAME ++ v.1 ++
        [Event.printChangeSummary FILENAME,
         Event.determineBuildTargets FILENAME,
         Event.reportAllExpectedTests] ++
        checksTimedExecOrDie "gulp update-packages" ++
        checksTimedExecOrDie "gulp check-exact-versions" ++
        checksTimedExecOrDie "gulp lint" ++
        checksTimedExecOrDie "gulp presubmit" ++
        (if env.buildTargets.contains "AVA" then
          checksTimedExecOrDie "gulp ava" else []) ++
        (if env.buildTargets.contains "BABEL_PLUGIN" then
          checksTimedExecOrDie "gulp babel-plugin-tests" else []) ++
        (if env.buildTargets.contains "CACHES_JSON" then
          checksTimedExecOrDie "gulp caches-json" ++
          checksTimedExecOrDie "gulp json-syntax" else []) ++
        (if env.buildTargets.contains "DOCS" then
          checksTimedExecOrDie "gulp check-links" else []) ++
        (if env.buildTargets.contains "DEV_DASHBOARD" then
          checksTimedExecOrDie "gulp dev-dashboard-tests" else []) ++
        (if env.buildTargets.contains "RUNTIME" then
          checksTimedExecOrDie "gulp dep-check" ++
          checksTimedExecOrDie "gulp check-types" else []) ++
        stopTimer FILENAME FILENAME, 0)

/-- The commands issued by `authenticateWithStorageLocation_`, given
structurally so their effect on the persistent gcloud configuration can
be interpreted. -/
inductive GcloudCmd where
  | decryptKey (token : String)
  | activateServiceAccount (keyFilePath : String)
  | configSetAccount (account : String)
  | configSetPassCreds (value : String)
  | configSetProject (projectId : String)
  | configList
deriving DecidableEq, Repr

/-- The exact shell command string each structural gcloud/openssl command
stands for in utils.js. -/
def renderGcloudCmd : GcloudCmd → String
  | GcloudCmd.decryptKey token =>
      "openssl aes-256-cbc -md sha256 -k " ++ token ++ " -in " ++
        "build-system/sa-travis-key.json.enc -out " ++ OUTPUT_STORAGE_KEY_FILE ++ " -d"
  | GcloudCmd.activateServiceAccount keyFilePath =>
      "gcloud auth activate-service-account " ++ "--key-file " ++ keyFilePath
  | GcloudCmd.configSetAccount account => "gcloud config set account " ++ account
  | GcloudCmd.configSetPassCreds value =>
      "gcloud config set pass_credentials_to_gsutil " ++ value
  | GcloudCmd.configSetProject projectId => "gcloud config set project " ++ projectId
  | GcloudCmd.configList => "gcloud config list"

/-- The command sequence of `authenticateWithStorageLocation_`
(utils.js lines 293-303) in structural form. -/
def authCmds (env : Env) : List GcloudCmd :=
  [GcloudCmd.decryptKey env.gcpToken,
   GcloudCmd.activateServiceAccount OUTPUT_STORAGE_KEY_FILE,
   GcloudCmd.configSetAccount OUTPUT_STORAGE_SERVICE_ACCOUNT,
   GcloudCmd.configSetPassCreds "true",
   GcloudCmd.configSetProject OUTPUT_STORAGE_PROJECT_ID,
   GcloudCmd.configList]

/-- The structural command list renders to precisely the trace of
`authenticateWithStorageLocation_`: the state model interprets the very
commands the code runs. -/
theorem authCmds_render (env : Env) :
    (authCmds env).map (fun c => Event.execOrDie (renderGcloudCmd c)) =
      authenticateWithStorageLocation_ env := rfl

/-- The persistent state mutated by the credential provisioner: the
decrypted key file on local disk and the gcloud CLI configuration
(active/configured account, pass-through flag, project id).  `none` means
not yet written / not yet set. -/
structure GcloudState where
  keyFileContents : Option String
  activeAccount : Option String
  configAccount : Option String
  passCredentialsToGsutil : Option String
  configProject : Option String
deriving DecidableEq, Repr

/-- External semantics of the two non-trivial tools: what openssl
decryption produces from the secret token (the encrypted input file is
fixed), and which identity a key file activates. -/
structure ExtSem where
  decrypt : String → String
  accountOf : String → String

/-- Effect of one gcloud/openssl command on the persistent state:
decryption (over)writes the key file; activation sets the active account
to the identity in the current key file; each `config set` overwrites one
configuration property; `config list` only prints. -/
def applyGcloudCmd (sem : ExtSem) : GcloudCmd → GcloudState → GcloudState
  | GcloudCmd.decryptKey token, s =>
      { s with keyFileContents := some (sem.decrypt token) }
  | GcloudCmd.activateServiceAccount _, s =>
      { s with activeAccount := s.keyFileContents.map sem.accountOf }
  | GcloudCmd.configSetAccount account, s => { s with configAccount := some account }
  | GcloudCmd.configSetPassCreds value, s =>
      { s with passCredentialsToGsutil := some value }
  | GcloudCmd.configSetProject projectId, s =>
      { s with configProject := some projectId }
  | GcloudCmd.configList, s => s

/-- Run a command sequence over the persistent state. -/
def runGcloudCmds (sem : ExtSem) (cmds : List GcloudCmd) (s : GcloudState) :
    GcloudState :=
  cmds.foldl (fun st c => applyGcloudCmd sem c st) s

/-- The state after one call to `authenticateWithStorageLocation_`. -/
def authState (sem : ExtSem) (env : Env) (s : GcloudState) : GcloudState :=
  runGcloudCmds sem (authCmds env) s

/-- Boolean string-prefix test over the character lists. -/
def strHasPrefix (p s : String) : Bool := p.toList.isPrefixOf s.toList

/-- Is this event a fatal (`execOrDie`) command? -/
def isExecOrDieEvent (e : Event) : Bool :=
  match e with
  | Event.execOrDie _ => true
  | _ => false

/-- Is this event a `console.error` line? -/
def isLogErrorEvent (e : Event) : Bool :=
  match e with
  | Event.logError _ => true
  | _ => false

/-- A fatal `gcloud config set …` command. -/
def isConfigSetEvent (e : Event) : Bool :=
  match e with
  | Event.execOrDie c => strHasPrefix "gcloud config set " c
  | _ => false

/-- A fatal `gcloud auth activate-service-account …` command, the marker
of a credential-provisioning call. -/
def isActivateEvent (e : Event) : Bool :=
  match e with
  | Event.execOrDie c => strHasPrefix "gcloud auth activate-service-account " c
  | _ => false

/-- A fatal `openssl …` decryption command. -/
def isOpensslEvent (e : Event) : Bool :=
  match e with
  | Event.execOrDie c => strHasPrefix "openssl " c
  | _ => false

/-- A fatal `gsutil …` transfer command. -/
def isGsutilEvent (e : Event) : Bool :=
  match e with
  | Event.execOrDie c => strHasPrefix "gsutil " c
  | _ => false

/-- A fatal `zip -r …` packaging command. -/
def isZipEvent (e : Event) : Bool :=
  match e with
  | Event.execOrDie c => strHasPrefix "zip -r " c
  | _ => false

/-- A fatal `gulp …` task command. -/
def isGulpEvent (e : Event) : Bool :=
  match e with
  | Event.execOrDie c => strHasPrefix "gulp " c
  | _ => false

/-- The last whitespace-separated argument of a shell command (the
destination of a `cp`-style invocation). -/
def destinationArg (cmd : String) : String :=
  String.mk ((cmd.toList.reverse.takeWhile (fun c => c ≠ ' ')).reverse)

/-- How many configSet commands appear in a structural gcloud command
list. -/
def isConfigSetGcloudCmd : GcloudCmd → Bool
  | GcloudCmd.configSetAccount _ => true
  | GcloudCmd.configSetPassCreds _ => true
  | GcloudCmd.configSetProject _ => true
  | _ => false

/-- C5: the authenticate operation is idempotent — for any external
semantics of decryption and key activation, any environment and any
starting gcloud CLI state, running `authenticateWithStorageLocation_`
twice leaves the persistent state (decrypted key file, active account,
pass-through flag, configured account and project id) exactly as one run
does; and the interpreted command list is precisely the command trace of
`authenticateWithStorageLocation_`. -/
theorem authenticate_idempotent (sem : ExtSem) (env : Env) (s : GcloudState) :
    authState sem env (authState sem env s) = authState sem env s ∧
    (authCmds env).map (fun c => Event.execOrDie (renderGcloudCmd c)) =
      authenticateWithStorageLocation_ env :=
  ⟨rfl, rfl⟩

/-- C6: for every run-id `R`, the Build archive is named
`amp_build_R.zip` and the Dist archive `amp_dist_R.zip`; the Build name
is the Dist name with the `_dist_` marker replaced by `_build_` around a
common prefix and suffix, both names contain `R`, and for `R = "1234"`
the Build archive name is `amp_build_1234.zip`. -/
theorem archive_names (r token : String) :
    BUILD_OUTPUT_FILE ⟨true, r, token⟩ = "amp_build_" ++ r ++ ".zip" ∧
    DIST_OUTPUT_FILE ⟨true, r, token⟩ = "amp_dist_" ++ r ++ ".zip" ∧
    (∃ p s, DIST_OUTPUT_FILE ⟨true, r, token⟩ = p ++ "_dist_" ++ s ∧
        BUILD_OUTPUT_FILE ⟨true, r, token⟩ = p ++ "_build_" ++ s) ∧
    (∃ p s, BUILD_OUTPUT_FILE ⟨true, r, token⟩ = p ++ r ++ s) ∧
    (∃ p s, DIST_OUTPUT_FILE ⟨true, r, token⟩ = p ++ r ++ s) ∧
    BUILD_OUTPUT_FILE ⟨true, "1234", token⟩ = "amp_build_1234.zip" := by
  refine ⟨rfl, rfl, ⟨"amp", r ++ ".zip", ?_, ?_⟩,
    ⟨"amp_build_", ".zip", ?_⟩, ⟨"amp_dist_", ".zip", ?_⟩, rfl⟩
  · rw [show ("amp" ++ "_dist_" : String) = "amp_dist_" from rfl]
    exact String.append_assoc "amp_dist_" r ".zip"
  · rw [show ("amp" ++ "_build_" : String) = "amp_build_" from rfl]
    exact String.append_assoc "amp_build_" r ".zip"
  · rfl
  · rfl

/-- C7: the elapsed time printed by `stopTimer` is `0m 0s` for a
zero-millisecond duration and `1m 1s` for a 61-second duration, and in
general the minutes are `elapsedMs / 60000` and the seconds
`(elapsedMs % 60000) / 1000`, both rounded down. -/
theorem stopTimer_time_format (functionName fileName : String) (t elapsedMs : Nat) :
    stopTimerMessage functionName fileName t t =
      fileLogPrefix fileName ++ " Done running " ++ ansiCyan functionName ++
        " Total time: " ++ ansiGreen "0m 0s" ∧
    stopTimerMessage functionName fileName t (t + 61000) =
      fileLogPrefix fileName ++ " Done running " ++ ansiCyan functionName ++
        " Total time: " ++ ansiGreen "1m 1s" ∧
    stopTimerTimeString 0 = "0m 0s" ∧
    stopTimerTimeString 61000 = "1m 1s" ∧
    stopTimerMins elapsedMs = elapsedMs / 60000 ∧
    stopTimerSecs elapsedMs = elapsedMs % 60000 / 1000 := by
  refine ⟨?_, ?_, rfl, rfl, rfl, rfl⟩
  · simp only [stopTimerMessage, Nat.sub_self]
    rfl
  · have h : t + 61000 - t = 61000 := by omega
    simp only [stopTimerMessage, h]
    rfl

/-- C3 counterexample: `authenticateWithStorageLocation_` issues exactly
three `gcloud config set …` commands (account, pass-through flag,
project id), not four, as seen on a concrete environment. -/
theorem authenticate_config_pieces_counterexample :
    (authenticateWithStorageLocation_ ⟨true, "1234", "SECRET"⟩).countP
        isConfigSetEvent = 3 ∧
    ¬ (authenticateWithStorageLocation_ ⟨true, "1234", "SECRET"⟩).countP
        isConfigSetEvent = 4 := by
  decide

/-- C3 (amended): every call to `authenticateWithStorageLocation_`
performs, each step fatal on failure: decryption of the local encrypted
key file with AES-256-CBC using the explicitly specified `-md sha256`
digest and a key read from the `GCP_TOKEN` environment variable, then
activation of the decrypted service-account identity against the cloud
CLI, then the setting of three pieces of persistent CLI configuration
(account identity, credential pass-through flag, project id), then a
listing of the resulting configuration. -/
theorem authenticate_steps (env : Env) :
    (authenticateWithStorageLocation_ env).all isExecOrDieEvent = true ∧
    (authenticateWithStorageLocation_ env).length = 6 ∧
    (authenticateWithStorageLocation_ env)[0]? =
      some (Event.execOrDie
        ("openssl aes-256-cbc -md sha256 -k " ++ env.gcpToken ++ " -in " ++
          "build-system/sa-travis-key.json.enc -out " ++
          OUTPUT_STORAGE_KEY_FILE ++ " -d")) ∧
    (authenticateWithStorageLocation_ env)[1]? =
      some (Event.execOrDie
        ("gcloud auth activate-service-account " ++
          "--key-file " ++ OUTPUT_STORAGE_KEY_FILE)) ∧
    (authenticateWithStorageLocation_ env)[2]? =
      some (Event.execOrDie
        ("gcloud config set account " ++ OUTPUT_STORAGE_SERVICE_ACCOUNT)) ∧
    (authenticateWithStorageLocation_ env)[3]? =
      some (Event.execOrDie "gcloud config set pass_credentials_to_gsutil true") ∧
    (authenticateWithStorageLocation_ env)[4]? =
      some (Event.execOrDie
        ("gcloud config set project " ++ OUTPUT_STORAGE_PROJECT_ID)) ∧
    (authenticateWithStorageLocation_ env)[5]? =
      some (Event.execOrDie "gcloud config list") ∧
    (authCmds env).countP isConfigSetGcloudCmd = 3 ∧
    (authCmds env).map (fun c => Event.execOrDie (renderGcloudCmd c)) =
      authenticateWithStorageLocation_ env := by
  refine ⟨rfl, rfl, rfl, rfl, rfl, rfl, rfl, rfl, rfl, rfl⟩

/-- C1 (amended): for every upload entry point (`uploadBuildOutput`,
`uploadDistOutput`, via `uploadOutput_`), the steps occur in this order:
pack the directory set into the named archive, then authenticate, then
copy the archive to the remote bucket, with authentication immediately
preceding the copy; with run-id "1234", uploading the Build archive
issues exactly one authenticate call followed by exactly one
copy-to-bucket command, whose destination argument is the bucket
`gs://amp-travis-builds` (placing the archive object at
`gs://amp-travis-builds/amp_build_1234.zip`). -/
theorem upload_pack_auth_copy (fn file dirs : String) (env : Env) :
    uploadBuildOutput fn env =
      uploadOutput_ fn (BUILD_OUTPUT_FILE env) BUILD_OUTPUT_DIRS env ∧
    uploadDistOutput fn env =
      uploadOutput_ fn (DIST_OUTPUT_FILE env) DIST_OUTPUT_DIRS env ∧
    (∃ pre, uploadOutput_ fn file dirs env =
        pre ++ authenticateWithStorageLocation_ env ++
          [Event.execOrDie
             ("gsutil -m cp -r " ++ file ++ " " ++ OUTPUT_STORAGE_LOCATION),
           Event.exec "echo travis_fold:end:upload_results"] ∧
      Event.execOrDie ("zip -r " ++ file ++ " " ++ dirs) ∈ pre ∧
      pre.countP isGsutilEvent = 0 ∧
      pre.countP isOpensslEvent = 0 ∧
      pre.countP isActivateEvent = 0) ∧
    (uploadBuildOutput "uploadBuildOutput" ⟨true, "1234", "SECRET"⟩).countP
      isActivateEvent = 1 ∧
    (uploadBuildOutput "uploadBuildOutput" ⟨true, "1234", "SECRET"⟩).countP
      isGsutilEvent = 1 ∧
    (uploadBuildOutput "uploadBuildOutput" ⟨true, "1234", "SECRET"⟩).filter
      isGsutilEvent =
      [Event.execOrDie "gsutil -m cp -r amp_build_1234.zip gs://amp-travis-builds"] ∧
    destinationArg "gsutil -m cp -r amp_build_1234.zip gs://amp-travis-builds" =
      OUTPUT_STORAGE_LOCATION := by
  refine ⟨rfl, rfl,
    ⟨[Event.log ("\n" ++ fileLogPrefix fn ++ " Compressing " ++
        ansiCyan (String.intercalate ", " (dirs.splitOn " ")) ++
        " into " ++ ansiCyan file ++ "..."),
      Event.exec "echo travis_fold:start:zip_results && echo",
      Event.execOrDie ("zip -r " ++ file ++ " " ++ dirs),
      Event.exec "echo travis_fold:end:zip_results",
      Event.log (fileLogPrefix fn ++ " Uploading " ++
        ansiCyan file ++ " to " ++ ansiCyan OUTPUT_STORAGE_LOCATION ++ "..."),
      Event.exec "echo travis_fold:start:upload_results && echo"],
      ?_, ?_, rfl, rfl, rfl⟩, ?_, ?_, ?_, rfl⟩
  · simp [uploadOutput_]
  · simp
  · decide
  · decide
  · decide

/-- C1 counterexample: with run-id "1234", the single copy-to-bucket
command of the Build upload is
`gsutil -m cp -r amp_build_1234.zip gs://amp-travis-builds`, whose
destination argument is the bare bucket, not
`gs://amp-travis-builds/amp_build_1234.zip` as the claim states. -/
theorem upload_copy_destination_counterexample :
    (uploadBuildOutput "uploadBuildOutput" ⟨true, "1234", "SECRET"⟩).filter
      isGsutilEvent =
      [Event.execOrDie "gsutil -m cp -r amp_build_1234.zip gs://amp-travis-builds"] ∧
    ¬ destinationArg "gsutil -m cp -r amp_build_1234.zip gs://amp-travis-builds" =
      "gs://amp-travis-builds/amp_build_1234.zip" := by
  decide

/-- C2: for every download entry point (`downloadBuildOutput`,
`downloadDistOutput`, via `downloadOutput_`), the steps occur in this
order: authenticate, copy the archive object from the bucket to local
disk, extract it in place with existing files overwritten (`unzip -o`),
then recursively list the expected output directories (`ls -laR`) as a
post-condition check; no other fatal command intervenes, and a failure of
the listing step is fatal (the process dies there). -/
theorem download_auth_copy_extract_verify (fn file dirs : String) (env : Env) :
    downloadBuildOutput fn env =
      downloadOutput_ fn (BUILD_OUTPUT_FILE env) BUILD_OUTPUT_DIRS env ∧
    downloadDistOutput fn env =
      downloadOutput_ fn (DIST_OUTPUT_FILE env) DIST_OUTPUT_DIRS env ∧
    (∃ pre mid1 mid2 post,
      downloadOutput_ fn file dirs env =
        pre ++ authenticateWithStorageLocation_ env ++
          (Event.execOrDie ("gsutil cp " ++ (OUTPUT_STORAGE_LOCATION ++ "/" ++ file) ++
              " " ++ file) ::
            mid1 ++ Event.execOrDie ("unzip -o " ++ file) ::
              mid2 ++ Event.execOrDie ("ls -laR " ++ dirs) :: post) ∧
      pre.countP isExecOrDieEvent = 0 ∧
      mid1.countP isExecOrDieEvent = 0 ∧
      mid2.countP isExecOrDieEvent = 0) ∧
    runTrace (fun c => c == "ls -laR " ++ BUILD_OUTPUT_DIRS)
      (downloadBuildOutput "downloadBuildOutput" ⟨true, "1234", "SECRET"⟩) =
      Outcome.died ("ls -laR " ++ BUILD_OUTPUT_DIRS) := by
  refine ⟨rfl, rfl,
    ⟨[Event.log (fileLogPrefix fn ++ " Downloading build output from " ++
        ansiCyan (OUTPUT_STORAGE_LOCATION ++ "/" ++ file) ++ "..."),
      Event.exec "echo travis_fold:start:download_results && echo"],
     [Event.exec "echo travis_fold:end:download_results",
      Event.log (fileLogPrefix fn ++ " Extracting " ++ ansiCyan file ++ "..."),
      Event.exec "echo travis_fold:start:unzip_results && echo"],
     [Event.exec "echo travis_fold:end:unzip_results",
      Event.log (fileLogPrefix fn ++ " Verifying extracted files..."),
      Event.exec "echo travis_fold:start:verify_unzip_results && echo"],
     [Event.exec "echo travis_fold:end:verify_unzip_results"],
     ?_, rfl, rfl, rfl⟩, ?_⟩
  · simp [downloadOutput_]
  · decide

/-- C4: in every execution of `processAndUploadDistOutput`, the
URL-rewrite transform is invoked on both the `test/manual` and `examples`
directory trees strictly before the archive is packaged (and hence before
the upload copy), and the external upload-complete signal is emitted only
after the upload copy, as the final action. -/
theorem processAndUpload_rewrite_before_pack (fn : String) (env : Env) :
    ∃ a b c,
      processAndUploadDistOutput fn env =
        Event.replaceUrls "test/manual" :: Event.replaceUrls "examples" ::
          (a ++ Event.execOrDie ("zip -r " ++ DIST_OUTPUT_FILE env ++ " " ++
              DIST_OUTPUT_DIRS) ::
            b ++ Event.execOrDie ("gsutil -m cp -r " ++ DIST_OUTPUT_FILE env ++
              " " ++ OUTPUT_STORAGE_LOCATION) :: c) ++
          [Event.signalDistUploadComplete] ∧
      a.countP isZipEvent = 0 ∧
      (Event.replaceUrls "test/manual") ∉ a ++ b ++ c ∧
      (Event.replaceUrls "examples") ∉ a ++ b ++ c := by
  refine ⟨[Event.log ("\n" ++ fileLogPrefix fn ++ " Compressing " ++
        ansiCyan (String.intercalate ", " (DIST_OUTPUT_DIRS.splitOn " ")) ++
        " into " ++ ansiCyan (DIST_OUTPUT_FILE env) ++ "..."),
      Event.exec "echo travis_fold:start:zip_results && echo"],
    [Event.exec "echo travis_fold:end:zip_results",
      Event.log (fileLogPrefix fn ++ " Uploading " ++
        ansiCyan (DIST_OUTPUT_FILE env) ++ " to " ++
        ansiCyan OUTPUT_STORAGE_LOCATION ++ "..."),
      Event.exec "echo travis_fold:start:upload_results && echo"] ++
      authenticateWithStorageLocation_ env,
    [Event.exec "echo travis_fold:end:upload_results"],
    ?_, rfl, ?_, ?_⟩
  · simp [processAndUploadDistOutput, uploadDistOutput, uploadOutput_]
  · simp [authenticateWithStorageLocation_, decryptTravisKey_]
  · simp [authenticateWithStorageLocation_, decryptTravisKey_]

/-- C8: when no common ancestor commit is found (`gitBranchCreationPoint`
returns the JS-falsy empty string), `verifyBranchCreationPoint` prints
two error lines of remediation guidance (the second naming the branch
set-up URL) and returns `false` without terminating the process; the
`checks.js` caller converts that `false` into exit code 1; when an
ancestor is found, it returns `true`. -/
theorem verifyBranchCreationPoint_missing_ancestor
    (fileName branchName bcp : String) (targets : List String)
    (fails : String → Bool) :
    (verifyBranchCreationPoint fileName bcp branchName).2 = !(bcp == "") ∧
    (verifyBranchCreationPoint fileName "" branchName).1.length = 2 ∧
    (verifyBranchCreationPoint fileName "" branchName).1.all isLogErrorEvent = true ∧
    (verifyBranchCreationPoint fileName "" branchName).1[1]? =
      some (Event.logError (fileLogPrefix fileName ++ " " ++ ansiYellow "NOTE:" ++
        " To fix this, rebase your branch on " ++ ansiCyan "master" ++
        ", or recreate it by following the instructions at " ++
        ansiCyan GIT_BRANCH_URL ++ ".")) ∧
    runTrace fails (verifyBranchCreationPoint fileName bcp branchName).1 =
      Outcome.ok ∧
    (mainChecks ⟨true, true, "", branchName, targets⟩).2 = 1 := by
  by_cases h : bcp = ""
  · subst h
    refine ⟨by simp [verifyBranchCreationPoint], rfl, rfl, rfl, rfl, ?_⟩
    simp [mainChecks, verifyBranchCreationPoint]
  · refine ⟨?_, rfl, rfl, rfl, ?_, ?_⟩
    · simp [verifyBranchCreationPoint, h]
    · simp [verifyBranchCreationPoint, h, runTrace]
    · simp [mainChecks, verifyBranchCreationPoint]

/-- C9: when `isTravisBuild()` is false, both `BUILD_OUTPUT_FILE` and
`DIST_OUTPUT_FILE` are the empty string, and every upload and download
entry point still issues its archive and copy commands with the empty
archive file name embedded (no fail-fast guard exists): the Build zip
command degenerates to `zip -r  build/ dist/ dist.3p/ EXTENSIONS_CSS_MAP`
and the traces run to completion when no external command fails. -/
theorem non_travis_empty_archive_names (fn n token : String) :
    BUILD_OUTPUT_FILE ⟨false, n, token⟩ = "" ∧
    DIST_OUTPUT_FILE ⟨false, n, token⟩ = "" ∧
    ("zip -r " ++ "" ++ " " ++ BUILD_OUTPUT_DIRS) =
      "zip -r  build/ dist/ dist.3p/ EXTENSIONS_CSS_MAP" ∧
    Event.execOrDie ("zip -r " ++ "" ++ " " ++ BUILD_OUTPUT_DIRS) ∈
      uploadBuildOutput fn ⟨false, n, token⟩ ∧
    Event.execOrDie ("gsutil -m cp -r " ++ "" ++ " " ++ OUTPUT_STORAGE_LOCATION) ∈
      uploadBuildOutput fn ⟨false, n, token⟩ ∧
    Event.execOrDie ("zip -r " ++ "" ++ " " ++ DIST_OUTPUT_DIRS) ∈
      uploadDistOutput fn ⟨false, n, token⟩ ∧
    Event.execOrDie ("gsutil -m cp -r " ++ "" ++ " " ++ OUTPUT_STORAGE_LOCATION) ∈
      uploadDistOutput fn ⟨false, n, token⟩ ∧
    Event.execOrDie ("gsutil cp " ++ (OUTPUT_STORAGE_LOCATION ++ "/" ++ "") ++
        " " ++ "") ∈ downloadBuildOutput fn ⟨false, n, token⟩ ∧
    Event.execOrDie ("unzip -o " ++ "") ∈ downloadBuildOutput fn ⟨false, n, token⟩ ∧
    Event.execOrDie ("gsutil cp " ++ (OUTPUT_STORAGE_LOCATION ++ "/" ++ "") ++
        " " ++ "") ∈ downloadDistOutput fn ⟨false, n, token⟩ ∧
    runTrace (fun _ => false) (uploadBuildOutput fn ⟨false, n, token⟩) =
      Outcome.ok ∧
    runTrace (fun _ => false) (downloadBuildOutput fn ⟨false, n, token⟩) =
      Outcome.ok := by
  refine ⟨rfl, rfl, rfl, ?_, ?_, ?_, ?_, ?_, ?_, ?_, rfl, rfl⟩ <;>
    simp [uploadBuildOutput, uploadDistOutput, downloadBuildOutput,
      downloadDistOutput, uploadOutput_, downloadOutput_, BUILD_OUTPUT_FILE,
      DIST_OUTPUT_FILE, authenticateWithStorageLocation_, decryptTravisKey_]

/-- C10: in the `checks.js` main, on both early-failure paths
(`runYarnChecks` returning false, or `verifyBranchCreationPoint`
returning false on a pull-request build), the entry timer is stopped
exactly once for the startTimer issued at entry, `process.exitCode` is
set to 1, and no gulp command (indeed no fatal command at all) is
executed before returning. -/
theorem checks_main_early_failure (env : ChecksEnv) :
    (mainChecks { env with runYarnChecks := false }).2 = 1 ∧
    (mainChecks { env with runYarnChecks := false }).1.count
      (Event.startTimer FILENAME FILENAME) = 1 ∧
    (mainChecks { env with runYarnChecks := false }).1.count
      (Event.stopTimer FILENAME FILENAME) = 1 ∧
    (mainChecks { env with runYarnChecks := false }).1.countP isGulpEvent = 0 ∧
    (mainChecks
      { env with
          runYarnChecks := true
          isTravisPullRequestBuild := true
          branchCreationPoint := "" }).2 = 1 ∧
    (mainChecks
      { env with
          runYarnChecks := true
          isTravisPullRequestBuild := true
          branchCreationPoint := "" }).1.count
      (Event.startTimer FILENAME FILENAME) = 1 ∧
    (mainChecks
      { env with
          runYarnChecks := true
          isTravisPullRequestBuild := true
          branchCreationPoint := "" }).1.count
      (Event.stopTimer FILENAME FILENAME) = 1 ∧
    (mainChecks
      { env with
          runYarnChecks := true
          isTravisPullRequestBuild := true
          branchCreationPoint := "" }).1.countP isGulpEvent = 0 ∧
    (mainChecks
      { env with
          runYarnChecks := true
          isTravisPullRequestBuild := true
          branchCreationPoint := "" }).1.countP isExecOrDieEvent = 0 := by
  refine ⟨rfl, ?_, ?_, rfl, ?_, ?_, ?_, ?_, ?_⟩ <;>
    simp [mainChecks, verifyBranchCreationPoint, startTimer, stopTimer,
      FILENAME, isGulpEvent, isExecOrDieEvent]
